import Mathlib

/-!
Verification of the sideqst Quest Progression & Reward Engine.

The definitions below are a shallow embedding of:
  * the PostgreSQL functions and tables in `src/supabase_schema.sql`
    (`calculate_level`, the `update_level_on_xp_change` trigger,
    `check_friend_synergy`, `award_step_xp`, `award_quest_completion_xp`,
    `award_badge`, `award_title`, `check_and_award_quest_rewards`,
    `check_and_award_achievement_rewards`), and
  * the TypeScript client operations in `src/lib/services/questService.ts`
    (`acceptQuest`, `submitQuestStep`) and the profile operations in the
    auth service (`createProfile`, `updateProfile`).

Tables are lists of row structures; `timestamptz` values are modelled as
integers (epoch seconds); XP amounts are natural numbers (the product's
reward values are non-negative).  A SQL statement that throws aborts its
transaction, which is modelled by `Except`: on `.error` the database is
unchanged (`dbAfter`).
-/

namespace Sideqst

abbrev UserId := Nat
abbrev QuestId := Nat
abbrev StepId := Nat
abbrev BadgeId := Nat
abbrev TitleId := Nat
abbrev AchievementId := Nat
abbrev Time := Int

/-- `calculate_level` from `supabase_schema.sql`: `floor(sqrt(xp/100))::integer + 1`.
`xp / 100` is PostgreSQL integer division (truncation, which is `Nat` division
for non-negative `xp`); for arguments in the `integer` range,
`floor(sqrt(n))` on a double equals the integer square root `Nat.sqrt n`. -/
def calculate_level (xp : Nat) : Nat :=
  Nat.sqrt (xp / 100) + 1

/-- `profiles` row: the columns the engine reads or writes. -/
structure Profile where
  user_id : UserId
  username : String
  bio : Option String
  xp : Nat
  level : Nat
  deriving Repr, DecidableEq

/-- `quests` row (reward-relevant columns). -/
structure QuestRow where
  id : QuestId
  base_xp_reward : Nat
  deriving Repr, DecidableEq

/-- `quest_steps` row. -/
structure QuestStepRow where
  id : StepId
  quest_id : QuestId
  step_number : Nat
  requires_check_in : Bool
  step_xp_reward : Nat
  deriving Repr, DecidableEq

/-- `user_quests` row.  `current_step` is a nullable `integer` column
(default 0), hence `Option Int`. -/
structure UserQuestRow where
  user_id : UserId
  quest_id : QuestId
  is_accepted : Bool
  accepted_at : Option Time
  is_completed : Bool
  completed_at : Option Time
  current_step : Option Int
  last_submission_at : Option Time
  deriving Repr, DecidableEq

/-- `quest_submissions` row.  Note the table has no `current_step` column. -/
structure QuestSubmissionRow where
  user_id : UserId
  quest_id : QuestId
  step_id : Option StepId
  image_url : String
  caption : Option String
  created_at : Time
  deriving Repr, DecidableEq

inductive FriendStatus where
  | pending
  | accepted
  | blocked
  deriving Repr, DecidableEq

/-- `friendships` row. -/
structure FriendshipRow where
  user_id : UserId
  friend_id : UserId
  status : FriendStatus
  deriving Repr, DecidableEq

/-- `user_badges` row (grant record). -/
structure UserBadgeRow where
  user_id : UserId
  badge_id : BadgeId
  is_equipped : Bool
  deriving Repr, DecidableEq

/-- `user_titles` row (grant record). -/
structure UserTitleRow where
  user_id : UserId
  title_id : TitleId
  is_equipped : Bool
  deriving Repr, DecidableEq

/-- `quest_rewards` row: `xp_reward` is `not null` with default 100;
badge and title are optional (the table `check` forbids both at once). -/
structure QuestRewardRow where
  quest_id : QuestId
  xp_reward : Nat
  badge_id : Option BadgeId
  title_id : Option TitleId
  deriving Repr, DecidableEq

/-- `achievement_rewards` row: exactly one of badge/title/xp is set
(table `check` constraint); all three are nullable columns. -/
structure AchievementRewardRow where
  achievement_id : AchievementId
  badge_id : Option BadgeId
  title_id : Option TitleId
  xp_reward : Option Nat
  deriving Repr, DecidableEq

/-- The database state: one list per table the engine touches. -/
structure DB where
  profiles : List Profile
  quests : List QuestRow
  quest_steps : List QuestStepRow
  user_quests : List UserQuestRow
  quest_submissions : List QuestSubmissionRow
  friendships : List FriendshipRow
  user_badges : List UserBadgeRow
  user_titles : List UserTitleRow
  quest_rewards : List QuestRewardRow
  achievement_rewards : List AchievementRewardRow
  deriving Repr, DecidableEq

def DB.empty : DB :=
  ⟨[], [], [], [], [], [], [], [], [], []⟩

/-- Errors surfaced by the store.  `uniqueViolation` is the PostgreSQL
unique-constraint error (SQLSTATE 23505) — the spec's `ConflictError`;
`storageFailure` a failed storage upload; `statementFailure` any other
failed statement. -/
inductive DbError where
  | uniqueViolation
  | storageFailure
  | statementFailure
  deriving Repr, DecidableEq

/-- Transaction-abort semantics: an operation that returns `.error`
leaves the database as it was. -/
def dbAfter {α : Type} (db : DB) : Except DbError (DB × α) → DB
  | .ok x => x.1
  | .error _ => db

/-! ### SQL functions of `supabase_schema.sql` -/

/-- `update profiles set xp = <newXp> where user_id = <uid>` together with the
`update_level_on_xp_change` trigger, which runs `update_user_level` before
any update of the `xp` column: `new.level := calculate_level(new.xp)`. -/
def setProfileXp (db : DB) (uid : UserId) (newXp : Nat) : DB :=
  { db with profiles := db.profiles.map fun p =>
      if p.user_id = uid then { p with xp := newXp, level := calculate_level newXp } else p }

/-- `update profiles set xp = xp + <amt> where user_id = <uid>` (the atomic
delta form used by the reward loops), with the same level trigger. -/
def addProfileXp (db : DB) (uid : UserId) (amt : Nat) : DB :=
  { db with profiles := db.profiles.map fun p =>
      if p.user_id = uid then { p with xp := p.xp + amt, level := calculate_level (p.xp + amt) } else p }

/-- `check_friend_synergy(p_user_id, p_quest_id, p_completed_at)`: exists a
`user_quests` row joined to an `accepted` friendship relating its user to
`p_user_id` (in either direction), for the same quest, completed, whose
`completed_at` is within 300 seconds of `p_completed_at`.  A row with NULL
`completed_at` is filtered out by the SQL comparison. -/
def check_friend_synergy (db : DB) (p_user_id : UserId) (p_quest_id : QuestId)
    (p_completed_at : Time) : Bool :=
  db.user_quests.any fun uq =>
    (db.friendships.any fun f =>
        (f.user_id = uq.user_id && f.friend_id = p_user_id)
          || (f.friend_id = uq.user_id && f.user_id = p_user_id)
        |>.and (f.status = FriendStatus.accepted))
      && uq.quest_id = p_quest_id
      && uq.is_completed
      && (match uq.completed_at with
          | some ct => (ct - p_completed_at).natAbs ≤ 300
          | none => false)

/-- The synergy-adjusted quest-completion amount.  The source computes
`v_total_xp := v_base_xp * 1.1` when the bonus applies: `integer * numeric`
is exact decimal arithmetic, and the assignment to the `integer` variable
rounds half away from zero, which for non-negative `b` is `(b * 11 + 5) / 10`
in integer division. -/
def synergyAmount (base : Nat) (bonus : Bool) : Nat :=
  if bonus then (base * 11 + 5) / 10 else base

/-- `award_step_xp(p_user_id, p_quest_id, p_step_id)`: reads the step's
`step_xp_reward` (by step id only — `p_quest_id` is unused by the source),
reads the profile's xp, and writes `xp = current + step` (level trigger
fires).  When a `select into` finds no row the real function does not
abort: the variable is SQL NULL and the update writes `xp = NULL` (the
trigger then puts NULL in `level` too), a state the `Nat`-valued xp here
cannot express; the model returns `none` on those calls, leaving them
outside the modeled domain, and the theorems below only evaluate or
hypothesize calls whose rows exist. -/
def award_step_xp (db : DB) (p_user_id : UserId) (p_quest_id : QuestId)
    (p_step_id : StepId) : Option DB :=
  match db.quest_steps.find? (fun s => s.id = p_step_id),
        db.profiles.find? (fun p => p.user_id = p_user_id) with
  | some step, some prof =>
      some (setProfileXp db p_user_id (prof.xp + step.step_xp_reward))
  | _, _ => none

/-- `award_quest_completion_xp(p_user_id, p_quest_id)` invoked when the
clock reads `callTime`: the synergy check is evaluated at `now()` — the
call time — not at any recorded completion timestamp.  As with
`award_step_xp`, a missing quest or profile row does not abort the real
function but makes it write `xp = NULL`; the model returns `none` on
those calls, and the theorems below only treat calls whose rows exist. -/
def award_quest_completion_xp (db : DB) (p_user_id : UserId) (p_quest_id : QuestId)
    (callTime : Time) : Option DB :=
  match db.quests.find? (fun q => q.id = p_quest_id),
        db.profiles.find? (fun p => p.user_id = p_user_id) with
  | some quest, some prof =>
      let bonus := check_friend_synergy db p_user_id p_quest_id callTime
      let total := synergyAmount quest.base_xp_reward bonus
      some (setProfileXp db p_user_id (prof.xp + total))
  | _, _ => none

/-- `award_badge(p_user_id, p_badge_id)`: `insert ... on conflict
(user_id, badge_id) do nothing`.  `is_equipped` defaults to false. -/
def award_badge (db : DB) (p_user_id : UserId) (p_badge_id : BadgeId) : DB :=
  if db.user_badges.any fun r => r.user_id = p_user_id && r.badge_id = p_badge_id then db
  else { db with user_badges :=
    db.user_badges ++ [{ user_id := p_user_id, badge_id := p_badge_id, is_equipped := false }] }

/-- `award_title(p_user_id, p_title_id)`: `insert ... on conflict
(user_id, title_id) do nothing`. -/
def award_title (db : DB) (p_user_id : UserId) (p_title_id : TitleId) : DB :=
  if db.user_titles.any fun r => r.user_id = p_user_id && r.title_id = p_title_id then db
  else { db with user_titles :=
    db.user_titles ++ [{ user_id := p_user_id, title_id := p_title_id, is_equipped := false }] }

/-- Loop body of `check_and_award_quest_rewards`: grant badge if present,
grant title if present, then the xp update (`xp_reward` is `not null` in
`quest_rewards`, so the source's null check always passes). -/
def applyQuestReward (db : DB) (uid : UserId) (r : QuestRewardRow) : DB :=
  let db1 := match r.badge_id with
    | some b => award_badge db uid b
    | none => db
  let db2 := match r.title_id with
    | some t => award_title db1 uid t
    | none => db1
  addProfileXp db2 uid r.xp_reward

/-- `check_and_award_quest_rewards(p_user_id, p_quest_id)`: iterate all
`quest_rewards` rows of the quest, applying each.  A single plpgsql
function call runs inside one transaction. -/
def check_and_award_quest_rewards (db : DB) (p_user_id : UserId)
    (p_quest_id : QuestId) : DB :=
  (db.quest_rewards.filter fun r => r.quest_id = p_quest_id).foldl
    (fun d r => applyQuestReward d p_user_id r) db

/-- Loop body of `check_and_award_achievement_rewards`: badge, title and xp
are each granted when non-null. -/
def applyAchievementReward (db : DB) (uid : UserId) (r : AchievementRewardRow) : DB :=
  let db1 := match r.badge_id with
    | some b => award_badge db uid b
    | none => db
  let db2 := match r.title_id with
    | some t => award_title db1 uid t
    | none => db1
  match r.xp_reward with
  | some amt => addProfileXp db2 uid amt
  | none => db2

/-- `check_and_award_achievement_rewards(p_user_id, p_achievement_id)`. -/
def check_and_award_achievement_rewards (db : DB) (p_user_id : UserId)
    (p_achievement_id : AchievementId) : DB :=
  (db.achievement_rewards.filter fun r => r.achievement_id = p_achievement_id).foldl
    (fun d r => applyAchievementReward d p_user_id r) db

/-! ### TypeScript client operations -/

/-- `questService.acceptQuest(questId, userId)`: inserts a `user_quests`
row with `is_accepted = true`, `accepted_at = now`, `current_step = 1`;
the `unique(user_id, quest_id)` constraint rejects a second insert for the
same pair with a unique violation, which the service throws. -/
def acceptQuest (db : DB) (questId : QuestId) (userId : UserId) (now : Time) :
    Except DbError (DB × UserQuestRow) :=
  if db.user_quests.any fun r => r.user_id = userId && r.quest_id = questId then
    .error .uniqueViolation
  else
    let row : UserQuestRow :=
      { user_id := userId, quest_id := questId, is_accepted := true,
        accepted_at := some now, is_completed := false, completed_at := none,
        current_step := some 1, last_submission_at := none }
    .ok ({ db with user_quests := db.user_quests ++ [row] }, row)

/-- The caller-supplied fields of a step submission
(`Omit<QuestSubmission, 'id' | 'created_at'>` minus the service-set
image URL). -/
structure SubmissionInput where
  user_id : UserId
  quest_id : QuestId
  step_id : Option StepId
  caption : Option String
  deriving Repr, DecidableEq

/-- Infrastructure outcomes of the three independent requests that
`submitQuestStep` issues (storage upload, submission insert, progress
update); each can fail on its own since there is no transaction. -/
structure SubmitEnv where
  uploadFails : Bool
  insertFails : Bool
  updateFails : Bool
  deriving Repr, DecidableEq

/-- The public URL the service stores:
`quest-submissions/<user>/<quest>/<Date.now()>.jpg`. -/
def publicUrlFor (sub : SubmissionInput) (now : Time) : String :=
  "quest-submissions/" ++ toString sub.user_id ++ "/" ++ toString sub.quest_id
    ++ "/" ++ toString now ++ ".jpg"

/-- A JavaScript number value as it stands in the update payload sent to
the store: `jsUndefined` is `undefined`, `nan` is `NaN`, `num n` a finite
integer. -/
inductive JsNum where
  | jsUndefined
  | nan
  | num (n : Int)
  deriving Repr, DecidableEq

/-- JavaScript property access `data.current_step` on the row returned by
the `quest_submissions` insert: the table has no `current_step` column, so
the access yields `undefined`. -/
def QuestSubmissionRow.currentStepField (_ : QuestSubmissionRow) : JsNum :=
  .jsUndefined

/-- JavaScript `x + 1`: `undefined + 1` and `NaN + 1` are `NaN`. -/
def jsAddOne : JsNum → JsNum
  | .jsUndefined => .nan
  | .nan => .nan
  | .num n => .num (n + 1)

/-- The effect on an integer column of the value sent for it in the
update payload: `JSON.stringify` drops an `undefined` key entirely, so
the column keeps its old value; `NaN` serializes as `null`; a finite
number is stored as itself. -/
def updateColumn (old : Option Int) : JsNum → Option Int
  | .jsUndefined => old
  | .nan => none
  | .num n => some n

/-- `questService.submitQuestStep(submission, imageFile)` at clock `now`:
1. upload the image (throw on failure);
2. insert the `quest_submissions` row and read it back (throw on failure);
3. update the pair's `user_quests` row, setting `current_step` to
   `submission.step_id ? data.current_step + 1 : data.current_step`
   (where `data` is the inserted submission row) and `last_submission_at`;
   the update's error is never inspected, so its failure still returns
   success.
With a step id the payload value is `undefined + 1 = NaN`, which lands as
`null`; without one it is `undefined`, whose key `JSON.stringify` drops,
leaving the column unchanged.  No step-ordinal or check-in validation
occurs anywhere in the source. -/
def submitQuestStep (db : DB) (sub : SubmissionInput) (now : Time)
    (env : SubmitEnv) : Except DbError (DB × QuestSubmissionRow) :=
  if env.uploadFails then .error .storageFailure
  else if env.insertFails then .error .statementFailure
  else
    let row : QuestSubmissionRow :=
      { user_id := sub.user_id, quest_id := sub.quest_id, step_id := sub.step_id,
        image_url := publicUrlFor sub now, caption := sub.caption, created_at := now }
    let db1 := { db with quest_submissions := db.quest_submissions ++ [row] }
    let newStep : JsNum :=
      if sub.step_id.isSome then jsAddOne row.currentStepField
      else row.currentStepField
    let db2 :=
      if env.updateFails then db1
      else { db1 with user_quests := db1.user_quests.map fun uq =>
        if uq.user_id = sub.user_id && uq.quest_id = sub.quest_id then
          { uq with current_step := updateColumn uq.current_step newStep,
                    last_submission_at := some now }
        else uq }
    .ok (db2, row)

/-- `createProfile(userId, profile)` from the auth service: inserts a
`profiles` row with `xp: 0, level: 1` explicitly; a duplicate `user_id`
(primary key) or `username` (unique) raises error 23505, which the service
rethrows. -/
def createProfile (db : DB) (userId : UserId) (username : String)
    (bio : Option String) : Except DbError (DB × Profile) :=
  if db.profiles.any fun p => p.user_id = userId || p.username = username then
    .error .uniqueViolation
  else
    let p : Profile := { user_id := userId, username := username, bio := bio,
                         xp := 0, level := 1 }
    .ok ({ db with profiles := db.profiles ++ [p] }, p)

/-- `updateProfile(userId, updates)` from the auth service: a partial
update of `username` / `bio`; the `xp` column is not in the update, so the
level trigger does not fire and neither `xp` nor `level` changes.  A
username collision raises the unique violation. -/
def updateProfile (db : DB) (userId : UserId) (username : Option String)
    (bio : Option String) : Except DbError DB :=
  match username with
  | some u =>
      if db.profiles.any fun p => p.username = u && p.user_id ≠ userId then
        .error .uniqueViolation
      else
        .ok { db with profiles := db.profiles.map fun p =>
          if p.user_id = userId then
            { p with username := u, bio := bio <|> p.bio } else p }
  | none =>
      .ok { db with profiles := db.profiles.map fun p =>
        if p.user_id = userId then { p with bio := bio <|> p.bio } else p }

/-! ### The core operations, packaged for the reachability invariant -/

/-- One invocation of a core operation that creates a profile or mutates
XP (the operations of claim C7), plus the progress-tracker operations,
with its call-site arguments. -/
inductive CoreOp where
  | createProfileOp (uid : UserId) (username : String) (bio : Option String)
  | updateProfileOp (uid : UserId) (username : Option String) (bio : Option String)
  | awardStepXpOp (uid : UserId) (qid : QuestId) (sid : StepId)
  | awardQuestCompletionXpOp (uid : UserId) (qid : QuestId) (t : Time)
  | checkAndAwardQuestRewardsOp (uid : UserId) (qid : QuestId)
  | checkAndAwardAchievementRewardsOp (uid : UserId) (aid : AchievementId)
  | acceptQuestOp (qid : QuestId) (uid : UserId) (t : Time)
  | submitQuestStepOp (sub : SubmissionInput) (t : Time) (env : SubmitEnv)
  deriving Repr

/-- Run one core operation; a failed (aborted) client operation, and an
award call whose rows are missing (outside the modeled domain, see
`award_step_xp`), leave the database unchanged. -/
def applyCoreOp (db : DB) : CoreOp → DB
  | .createProfileOp uid u b => dbAfter db (createProfile db uid u b)
  | .updateProfileOp uid u b =>
      match updateProfile db uid u b with
      | .ok db2 => db2
      | .error _ => db
  | .awardStepXpOp uid q s => (award_step_xp db uid q s).getD db
  | .awardQuestCompletionXpOp uid q t => (award_quest_completion_xp db uid q t).getD db
  | .checkAndAwardQuestRewardsOp uid q => check_and_award_quest_rewards db uid q
  | .checkAndAwardAchievementRewardsOp uid a => check_and_award_achievement_rewards db uid a
  | .acceptQuestOp q uid t => dbAfter db (acceptQuest db q uid t)
  | .submitQuestStepOp sub t env => dbAfter db (submitQuestStep db sub t env)

/-- The derived-level invariant of claim C7: every profile's stored level
is the Leveling Calculator applied to its stored xp. -/
def ProfileInv (db : DB) : Prop :=
  ∀ p ∈ db.profiles, p.level = calculate_level p.xp

/-! ### Derived descriptions and observation helpers -/

/-- The `quest_submissions` row inserted by `submitQuestStep`. -/
def submissionRowOf (sub : SubmissionInput) (now : Time) : QuestSubmissionRow :=
  { user_id := sub.user_id, quest_id := sub.quest_id, step_id := sub.step_id,
    image_url := publicUrlFor sub now, caption := sub.caption, created_at := now }

/-- The net database effect of a fully "successful" `submitQuestStep`
call: the submission row is appended, and the pair's `user_quests` row
gets `last_submission_at = now` and — when the submission carries a step
id — `current_step = null` (the increment reads a `current_step` field
off the inserted submission row, which has no such column, and
`undefined + 1` is `NaN`, serialized as null); without a step id the
payload's `current_step` key is `undefined` and is dropped by
`JSON.stringify`, so the column keeps its old value.  Proved equal to
the operation (`submitQuestStep_ok_eq`). -/
def stepApply (db : DB) (sub : SubmissionInput) (now : Time) : DB :=
  { db with
    quest_submissions := db.quest_submissions ++ [submissionRowOf sub now],
    user_quests := db.user_quests.map fun uq =>
      if uq.user_id = sub.user_id && uq.quest_id = sub.quest_id then
        { uq with
          current_step := if sub.step_id.isSome then none else uq.current_step,
          last_submission_at := some now }
      else uq }

/-- Number of grant records for a (user, badge) pair. -/
def countBadge (db : DB) (u : UserId) (b : BadgeId) : Nat :=
  (db.user_badges.filter fun r => r.user_id = u && r.badge_id = b).length

/-- Number of grant records for a (user, title) pair. -/
def countTitle (db : DB) (u : UserId) (t : TitleId) : Nat :=
  (db.user_titles.filter fun r => r.user_id = u && r.title_id = t).length

/-- Whether a `user_quests` row exists for the pair. -/
def hasUserQuest (db : DB) (u : UserId) (q : QuestId) : Bool :=
  db.user_quests.any fun r => r.user_id = u && r.quest_id = q

/-- The xp column of every profile, in table order. -/
def profileXps (db : DB) : List Nat :=
  db.profiles.map Profile.xp

/-- All sub-requests succeed. -/
def okEnv : SubmitEnv :=
  { uploadFails := false, insertFails := false, updateFails := false }

/-! ### Concrete scenario databases -/

/-- A user (id 0, xp 0, level 1) with an accepted two-step quest (id 1,
base XP 100; steps 10 and 11 with ordinals 1 and 2) currently at step 1. -/
def twoStepDb : DB :=
  { profiles := [{ user_id := 0, username := "ada", bio := none, xp := 0, level := 1 }],
    quests := [{ id := 1, base_xp_reward := 100 }],
    quest_steps :=
      [{ id := 10, quest_id := 1, step_number := 1, requires_check_in := false, step_xp_reward := 25 },
       { id := 11, quest_id := 1, step_number := 2, requires_check_in := false, step_xp_reward := 25 }],
    user_quests :=
      [{ user_id := 0, quest_id := 1, is_accepted := true, accepted_at := some 0,
         is_completed := false, completed_at := none, current_step := some 1,
         last_submission_at := none }],
    quest_submissions := [], friendships := [], user_badges := [], user_titles := [],
    quest_rewards := [], achievement_rewards := [] }

/-- A submission for step id 11, whose ordinal (2) differs from the
row's `current_step` (1) in `twoStepDb`. -/
def mismatchedSub : SubmissionInput :=
  { user_id := 0, quest_id := 1, step_id := some 11, caption := none }

/-- A submission for step id 10, the current step of `twoStepDb`. -/
def matchingSub : SubmissionInput :=
  { user_id := 0, quest_id := 1, step_id := some 10, caption := none }

/-- A user (id 0, xp 0, level 1) and a one-step quest (id 1, base XP 100,
single step id 10 with step XP 25, no check-in), not yet accepted. -/
def oneStepDb : DB :=
  { profiles := [{ user_id := 0, username := "ada", bio := none, xp := 0, level := 1 }],
    quests := [{ id := 1, base_xp_reward := 100 }],
    quest_steps :=
      [{ id := 10, quest_id := 1, step_number := 1, requires_check_in := false, step_xp_reward := 25 }],
    user_quests := [], quest_submissions := [], friendships := [], user_badges := [],
    user_titles := [],
    quest_rewards := [{ quest_id := 1, xp_reward := 100, badge_id := none, title_id := none }],
    achievement_rewards := [] }

/-- Users 0 and 1 are accepted friends; both have completed quest 1
(base XP 100) with `completed_at = 1000`; user 0's profile has xp 0. -/
def synergyDb : DB :=
  { profiles := [{ user_id := 0, username := "ada", bio := none, xp := 0, level := 1 }],
    quests := [{ id := 1, base_xp_reward := 100 }],
    quest_steps := [],
    user_quests :=
      [{ user_id := 0, quest_id := 1, is_accepted := true, accepted_at := some 0,
         is_completed := true, completed_at := some 1000, current_step := some 2,
         last_submission_at := some 1000 },
       { user_id := 1, quest_id := 1, is_accepted := true, accepted_at := some 0,
         is_completed := true, completed_at := some 1000, current_step := some 2,
         last_submission_at := some 1000 }],
    quest_submissions := [],
    friendships := [{ user_id := 1, friend_id := 0, status := FriendStatus.accepted }],
    user_badges := [], user_titles := [], quest_rewards := [], achievement_rewards := [] }

/-- `synergyDb` with quest base XP 105 instead of 100 (exposes the
rounding of `105 * 1.1 = 115.5`). -/
def synergyDb105 : DB :=
  { synergyDb with quests := [{ id := 1, base_xp_reward := 105 }] }

/-- The end-to-end scenario of the spec's §8: accept the one-step quest,
then submit its only step (no check-in required), with every request
succeeding. -/
def endToEndDb : DB :=
  List.foldl applyCoreOp oneStepDb
    [CoreOp.acceptQuestOp 1 0 0,
     CoreOp.submitQuestStepOp
       { user_id := 0, quest_id := 1, step_id := some 10, caption := none } 10 okEnv]

/-- What the schema's award functions would compute on the end-to-end
final state had the client invoked them for the submitted step and the
completed quest (it never does). -/
def endToEndAwarded : Option DB :=
  (award_step_xp endToEndDb 0 1 10).bind fun d => award_quest_completion_xp d 0 1 10

end Sideqst

namespace Sideqst

/-- Evaluation helper: `Nat.sqrt n = m` from the bracketing inequalities
(the kernel cannot reduce `Nat.sqrt` directly). -/
theorem sqrt_val {m n : Nat} (h1 : m * m ≤ n) (h2 : n < (m + 1) * (m + 1)) :
    Nat.sqrt n = m :=
  (Nat.eq_sqrt.mpr ⟨h1, h2⟩).symm

/-- Evaluation helper for concrete levels. -/
theorem calculate_level_val {xp m : Nat} (h1 : m * m ≤ xp / 100)
    (h2 : xp / 100 < (m + 1) * (m + 1)) : calculate_level xp = m + 1 := by
  unfold calculate_level
  rw [sqrt_val h1 h2]

theorem calculate_level_0 : calculate_level 0 = 1 := calculate_level_val (by decide) (by decide)

theorem calculate_level_100 : calculate_level 100 = 2 := calculate_level_val (by decide) (by decide)

theorem calculate_level_125 : calculate_level 125 = 2 := calculate_level_val (by decide) (by decide)

theorem calculate_level_400 : calculate_level 400 = 3 := calculate_level_val (by decide) (by decide)

/-- CLAIM C1.  The Leveling Calculator returns
`floor (sqrt (xp / 100)) + 1` with integer division applied to `xp / 100`
before the square root; it is deterministic (a pure function),
non-decreasing in `xp`, and `level 0 = 1`, `level 100 = 2`,
`level 400 = 3`. -/
theorem calculate_level_spec :
    (∀ xp : Nat, calculate_level xp = Nat.sqrt (xp / 100) + 1) ∧
    (∀ a b : Nat, a ≤ b → calculate_level a ≤ calculate_level b) ∧
    calculate_level 0 = 1 ∧ calculate_level 100 = 2 ∧ calculate_level 400 = 3 := by
  refine ⟨fun xp => rfl, fun a b hab => ?_,
    calculate_level_0, calculate_level_100, calculate_level_400⟩
  have h1 : a / 100 ≤ b / 100 := Nat.div_le_div_right hab
  have h2 : Nat.sqrt (a / 100) ≤ Nat.sqrt (b / 100) := Nat.sqrt_le_sqrt h1
  exact Nat.add_le_add_right h2 1

/-- Witness for C1: instantiates the monotonicity part at 150 ≤ 450. -/
theorem calculate_level_spec_witness :
    calculate_level 150 ≤ calculate_level 450 :=
  calculate_level_spec.2.1 150 450 (by decide)

/-! ### Reward Ledger: idempotent grants (C5) -/

theorem filter_nil_of_any_false {α : Type} {l : List α} {p : α → Bool}
    (h : l.any p = false) : l.filter p = [] := by
  rw [List.filter_eq_nil_iff]
  intro a ha hpa
  have := List.any_eq_true.mpr ⟨a, ha, hpa⟩
  rw [h] at this
  exact Bool.false_ne_true this

theorem filter_length_pos_of_any_true {α : Type} {l : List α} {p : α → Bool}
    (h : l.any p = true) : 0 < (l.filter p).length := by
  rcases List.any_eq_true.mp h with ⟨a, ha, hpa⟩
  exact List.length_pos.mpr (fun hnil => by
    have := List.mem_filter.mpr ⟨ha, hpa⟩
    rw [hnil] at this
    exact List.not_mem_nil a this)

theorem award_badge_second_noop {db : DB} {u : UserId} {b : BadgeId} :
    award_badge (award_badge db u b) u b = award_badge db u b := by
  unfold award_badge
  by_cases h : db.user_badges.any (fun r => r.user_id = u && r.badge_id = b) = true
  · simp [h]
  · simp only [Bool.not_eq_true] at h
    simp only [h, if_neg, Bool.false_eq_true, if_false]
    have : ((db.user_badges ++
        [({ user_id := u, badge_id := b, is_equipped := false } : UserBadgeRow)]).any
          (fun r => r.user_id = u && r.badge_id = b)) = true := by
      rw [List.any_append]
      simp
    simp [this]

theorem countBadge_after_award {db : DB} {u : UserId} {b : BadgeId}
    (h : countBadge db u b ≤ 1) : countBadge (award_badge db u b) u b = 1 := by
  unfold countBadge at *
  unfold award_badge
  by_cases hany : db.user_badges.any (fun r => r.user_id = u && r.badge_id = b) = true
  · simp only [hany, if_true]
    exact Nat.le_antisymm h (filter_length_pos_of_any_true hany)
  · simp only [Bool.not_eq_true] at hany
    simp only [hany, Bool.false_eq_true, if_false]
    rw [List.filter_append, List.length_append,
      filter_nil_of_any_false hany]
    simp

theorem award_title_second_noop {db : DB} {u : UserId} {t : TitleId} :
    award_title (award_title db u t) u t = award_title db u t := by
  unfold award_title
  by_cases h : db.user_titles.any (fun r => r.user_id = u && r.title_id = t) = true
  · simp [h]
  · simp only [Bool.not_eq_true] at h
    simp only [h, Bool.false_eq_true, if_false]
    have : ((db.user_titles ++
        [({ user_id := u, title_id := t, is_equipped := false } : UserTitleRow)]).any
          (fun r => r.user_id = u && r.title_id = t)) = true := by
      rw [List.any_append]
      simp
    simp [this]

theorem countTitle_after_award {db : DB} {u : UserId} {t : TitleId}
    (h : countTitle db u t ≤ 1) : countTitle (award_title db u t) u t = 1 := by
  unfold countTitle at *
  unfold award_title
  by_cases hany : db.user_titles.any (fun r => r.user_id = u && r.title_id = t) = true
  · simp only [hany, if_true]
    exact Nat.le_antisymm h (filter_length_pos_of_any_true hany)
  · simp only [Bool.not_eq_true] at hany
    simp only [hany, Bool.false_eq_true, if_false]
    rw [List.filter_append, List.length_append,
      filter_nil_of_any_false hany]
    simp

/-- CLAIM C5.  Granting the same badge (resp. title) to the same user a
second time succeeds (`award_badge` / `award_title` are total — the
`on conflict do nothing` insert raises no error), leaves exactly one
grant record for the pair, and changes nothing else: the second call is
the identity on the whole database.  The hypotheses are the storage
uniqueness constraints `unique(user_id, badge_id)` /
`unique(user_id, title_id)` on the starting state. -/
theorem grant_idempotent (db : DB) (u : UserId) (b : BadgeId) (t : TitleId)
    (hb : countBadge db u b ≤ 1) (ht : countTitle db u t ≤ 1) :
    award_badge (award_badge db u b) u b = award_badge db u b ∧
    countBadge (award_badge (award_badge db u b) u b) u b = 1 ∧
    award_title (award_title db u t) u t = award_title db u t ∧
    countTitle (award_title (award_title db u t) u t) u t = 1 := by
  refine ⟨award_badge_second_noop, ?_, award_title_second_noop, ?_⟩
  · rw [award_badge_second_noop]
    exact countBadge_after_award hb
  · rw [award_title_second_noop]
    exact countTitle_after_award ht

/-- Witness for C5 at the empty database, user 0, badge 1, title 2. -/
theorem grant_idempotent_witness :
    countBadge DB.empty 0 1 ≤ 1 ∧
    countBadge (award_badge (award_badge DB.empty 0 1) 0 1) 0 1 = 1 := by
  refine ⟨by decide, (grant_idempotent DB.empty 0 1 2 (by decide) (by decide)).2.1⟩

/-! ### Quest acceptance is exactly-once (C6) -/

/-- CLAIM C6.  The first `acceptQuest` call for a (user, quest) pair
creates the `user_quests` row with `current_step = 1`, `is_accepted =
true` and `accepted_at` the current time; a second call for the same
pair fails with the unique violation (the spec's `ConflictError`) and —
the second transaction having aborted — leaves the stored row unchanged. -/
theorem acceptQuest_exactly_once (db : DB) (u : UserId) (q : QuestId)
    (t1 t2 : Time) (h : hasUserQuest db u q = false) :
    acceptQuest db q u t1 =
      .ok ({ db with user_quests := db.user_quests ++
        [{ user_id := u, quest_id := q, is_accepted := true, accepted_at := some t1,
           is_completed := false, completed_at := none, current_step := some 1,
           last_submission_at := none }] },
        { user_id := u, quest_id := q, is_accepted := true, accepted_at := some t1,
          is_completed := false, completed_at := none, current_step := some 1,
          last_submission_at := none }) ∧
    acceptQuest (dbAfter db (acceptQuest db q u t1)) q u t2 = .error .uniqueViolation ∧
    dbAfter (dbAfter db (acceptQuest db q u t1))
        (acceptQuest (dbAfter db (acceptQuest db q u t1)) q u t2) =
      dbAfter db (acceptQuest db q u t1) := by
  unfold hasUserQuest at h
  have h1 : acceptQuest db q u t1 =
      .ok ({ db with user_quests := db.user_quests ++
        [{ user_id := u, quest_id := q, is_accepted := true, accepted_at := some t1,
           is_completed := false, completed_at := none, current_step := some 1,
           last_submission_at := none }] },
        { user_id := u, quest_id := q, is_accepted := true, accepted_at := some t1,
          is_completed := false, completed_at := none, current_step := some 1,
          last_submission_at := none }) := by
    unfold acceptQuest
    simp [h]
  refine ⟨h1, ?_, ?_⟩
  · rw [h1]
    unfold acceptQuest
    simp [dbAfter, List.any_append]
  · rw [h1]
    unfold acceptQuest
    simp [dbAfter, List.any_append]

/-- Witness for C6 at the empty database. -/
theorem acceptQuest_exactly_once_witness :
    hasUserQuest DB.empty 0 1 = false ∧
    acceptQuest (dbAfter DB.empty (acceptQuest DB.empty 1 0 5)) 1 0 7 =
      .error .uniqueViolation :=
  ⟨by decide, (acceptQuest_exactly_once DB.empty 0 1 5 7 (by decide)).2.1⟩

/-! ### Step submission: what the client operation actually does (C2, C8, C9) -/

theorem submitQuestStep_ok_eq (db : DB) (sub : SubmissionInput) (now : Time) :
    submitQuestStep db sub now okEnv =
      .ok (stepApply db sub now, submissionRowOf sub now) := by
  cases h : sub.step_id with
  | none =>
      unfold submitQuestStep stepApply submissionRowOf okEnv
      simp [h, jsAddOne, updateColumn, QuestSubmissionRow.currentStepField]
  | some s =>
      unfold submitQuestStep stepApply submissionRowOf okEnv
      simp [h, jsAddOne, updateColumn, QuestSubmissionRow.currentStepField]

/-- COUNTEREXAMPLE to C2.  In `twoStepDb` the user's `current_step` is 1
while step id 11 has ordinal 2; submitting step 11 nevertheless succeeds
(no `ValidationError`) and changes state: a submission row is inserted
and the `user_quests` row is rewritten. -/
theorem submitQuestStep_no_validation_cex :
    (twoStepDb.quest_steps.find? fun s => s.id = 11).map QuestStepRow.step_number
        = some 2 ∧
    twoStepDb.user_quests.map UserQuestRow.current_step = [some 1] ∧
    (submitQuestStep twoStepDb mismatchedSub 5 okEnv).isOk = true ∧
    dbAfter twoStepDb (submitQuestStep twoStepDb mismatchedSub 5 okEnv) ≠ twoStepDb ∧
    (dbAfter twoStepDb (submitQuestStep twoStepDb mismatchedSub 5 okEnv)).quest_submissions.length
        = 1 := by
  refine ⟨rfl, rfl, rfl, ?_, rfl⟩
  intro heq
  have : (dbAfter twoStepDb (submitQuestStep twoStepDb mismatchedSub 5 okEnv)).quest_submissions.length
      = twoStepDb.quest_submissions.length := by rw [heq]
  simp [twoStepDb, dbAfter, submitQuestStep, mismatchedSub, okEnv] at this

/-- CLAIM C2, amended.  `submitQuestStep` performs no step-ordinal
validation and raises no `ValidationError`: with all three requests
succeeding, any submission — matching ordinal or not — returns success,
appends the `quest_submissions` row, and rewrites the pair's
`user_quests` row, setting `last_submission_at = now` and, when the
submission carries a step id, `current_step = null` (the increment reads
a `current_step` field off the inserted submission row, which has no
such column, and `undefined + 1` is `NaN`, serialized as null); without
a step id the `undefined` payload key is dropped and `current_step`
keeps its old value — it is never incremented; profile XP is
untouched. -/
theorem submitQuestStep_no_validation (db : DB) (sub : SubmissionInput) (now : Time) :
    submitQuestStep db sub now okEnv =
      .ok (stepApply db sub now, submissionRowOf sub now) ∧
    (stepApply db sub now).profiles = db.profiles ∧
    (stepApply db sub now).quest_submissions =
      db.quest_submissions ++ [submissionRowOf sub now] ∧
    (stepApply db sub now).user_quests = db.user_quests.map fun uq =>
      if uq.user_id = sub.user_id && uq.quest_id = sub.quest_id then
        { uq with
          current_step := if sub.step_id.isSome then none else uq.current_step,
          last_submission_at := some now }
      else uq :=
  ⟨submitQuestStep_ok_eq db sub now, rfl, rfl, rfl⟩

/-- COUNTEREXAMPLE to C8.  If the `user_quests` update fails after the
submission insert succeeded, the caller still receives success (the
service never inspects that update's error), the inserted submission
row persists, and the `user_quests` row is unchanged: a partially
applied write is observable with no error reported. -/
theorem submit_partial_commit_cex :
    (submitQuestStep twoStepDb matchingSub 5
        { uploadFails := false, insertFails := false, updateFails := true }).isOk = true ∧
    (dbAfter twoStepDb (submitQuestStep twoStepDb matchingSub 5
        { uploadFails := false, insertFails := false, updateFails := true })).quest_submissions.length
      = 1 ∧
    twoStepDb.quest_submissions.length = 0 ∧
    (dbAfter twoStepDb (submitQuestStep twoStepDb matchingSub 5
        { uploadFails := false, insertFails := false, updateFails := true })).user_quests
      = twoStepDb.user_quests :=
  ⟨rfl, rfl, rfl, rfl⟩

/-- CLAIM C8, amended.  The SQL reward functions each run inside a
single statement/transaction, but `submitQuestStep` issues its writes as
separate requests with no transaction: a storage failure aborts before
any database write; a submission-insert failure surfaces as an error
with the database unchanged; a progress-update failure after a
successful insert is not even detected — the call reports success while
the submission row is committed and the `user_quests` row is not
advanced. -/
theorem submitQuestStep_not_transactional (db : DB) (sub : SubmissionInput) (now : Time) :
    (∀ ins upd : Bool, submitQuestStep db sub now
        { uploadFails := true, insertFails := ins, updateFails := upd }
      = .error .storageFailure) ∧
    (∀ upd : Bool, submitQuestStep db sub now
        { uploadFails := false, insertFails := true, updateFails := upd }
      = .error .statementFailure) ∧
    dbAfter db (submitQuestStep db sub now
        { uploadFails := false, insertFails := true, updateFails := false }) = db ∧
    submitQuestStep db sub now
        { uploadFails := false, insertFails := false, updateFails := true }
      = .ok ({ db with quest_submissions := db.quest_submissions ++ [submissionRowOf sub now] },
             submissionRowOf sub now) :=
  ⟨fun _ _ => rfl, fun _ => rfl, rfl, rfl⟩

/-- COUNTEREXAMPLE to C9.  Two `SubmitStep` calls for the same
user/quest/expected-step, serialized one after the other (an admissible
schedule of the claimed concurrent pair): both succeed — neither
observes any conflict error — and `current_step` ends null rather than
advanced by exactly one. -/
theorem two_submits_cex :
    (submitQuestStep twoStepDb matchingSub 5 okEnv).isOk = true ∧
    (submitQuestStep (dbAfter twoStepDb (submitQuestStep twoStepDb matchingSub 5 okEnv))
        matchingSub 6 okEnv).isOk = true ∧
    (dbAfter (dbAfter twoStepDb (submitQuestStep twoStepDb matchingSub 5 okEnv))
        (submitQuestStep (dbAfter twoStepDb (submitQuestStep twoStepDb matchingSub 5 okEnv))
          matchingSub 6 okEnv)).user_quests.map UserQuestRow.current_step = [none] :=
  ⟨rfl, rfl, rfl⟩

/-- CLAIM C9, amended.  The progress update is unconditional (no read of
the expected step, no row-level guard) and its error is ignored, so two
submissions for the same user/quest/expected-step both succeed in either
serial order and no conflict is ever reported; when the submissions
carry a step id — the race the claim describes — every matching
`user_quests` row ends with `current_step = null`, so the step never
advances by one (and without a step id the column is left untouched,
which is no advance either). -/
theorem two_submits_both_succeed (db : DB) (sub : SubmissionInput) (t1 t2 : Time) :
    submitQuestStep db sub t1 okEnv =
      .ok (stepApply db sub t1, submissionRowOf sub t1) ∧
    submitQuestStep (stepApply db sub t1) sub t2 okEnv =
      .ok (stepApply (stepApply db sub t1) sub t2, submissionRowOf sub t2) ∧
    (sub.step_id.isSome = true →
      ∀ uq ∈ (stepApply (stepApply db sub t1) sub t2).user_quests,
        uq.user_id = sub.user_id → uq.quest_id = sub.quest_id →
          uq.current_step = none) := by
  refine ⟨submitQuestStep_ok_eq db sub t1, submitQuestStep_ok_eq (stepApply db sub t1) sub t2, ?_⟩
  intro hsome uq hmem hu hq
  rcases List.mem_map.mp hmem with ⟨a, _, rfl⟩
  by_cases hc : (a.user_id = sub.user_id && a.quest_id = sub.quest_id) = true
  · simp [hc, hsome]
  · rw [if_neg (by simpa using hc)] at hu hq ⊢
    exact absurd (by simp [hu, hq]) hc

/-- Witness for C9's amended statement at the concrete race scenario
(`matchingSub` carries step id 10). -/
theorem two_submits_both_succeed_witness :
    submitQuestStep twoStepDb matchingSub 5 okEnv =
      .ok (stepApply twoStepDb matchingSub 5, submissionRowOf matchingSub 5) ∧
    ∀ uq ∈ (stepApply (stepApply twoStepDb matchingSub 5) matchingSub 6).user_quests,
      uq.user_id = matchingSub.user_id → uq.quest_id = matchingSub.quest_id →
        uq.current_step = none :=
  ⟨(two_submits_both_succeed twoStepDb matchingSub 5 6).1,
   (two_submits_both_succeed twoStepDb matchingSub 5 6).2.2 (by decide)⟩

/-! ### The end-to-end scenario (C3) -/

/-- CLAIM C3, evaluated on the code.  Accepting the 1-step quest
(`stepXpReward = 25`, `baseXpReward = 100`) from xp 0 and submitting its
only step leaves profile xp = 0, level = 1, `is_completed = false` and
`current_step = null`: the submission path never invokes the schema's
award functions and nothing ever sets completion.  Had `award_step_xp`
and then `award_quest_completion_xp` been invoked on the final state (no
synergy applies), the profile would hold xp = 125 with level
`calculate_level 125 = 2` — the totals the claim expects. -/
theorem end_to_end_no_rewards :
    profileXps endToEndDb = [0] ∧
    endToEndDb.profiles.map Profile.level = [1] ∧
    endToEndDb.user_quests.map UserQuestRow.is_completed = [false] ∧
    endToEndDb.user_quests.map UserQuestRow.current_step = [none] ∧
    Option.map profileXps endToEndAwarded = some [125] ∧
    Option.map (fun d => d.profiles.map Profile.level) endToEndAwarded =
      some [calculate_level 125] ∧
    calculate_level 125 = 2 :=
  ⟨rfl, rfl, rfl, rfl, rfl, rfl, calculate_level_125⟩

/-! ### Quest-completion XP and friend synergy (C4, C10) -/

/-- COUNTEREXAMPLE to C4.  (a) In `synergyDb` the user's and the
friend's completion timestamps coincide (`completed_at = 1000`, gap 0 ≤
300 s), so the claim demands the bonus (110 XP for base 100); invoking
the award 400 s later applies no bonus — 100 XP — because the window is
measured against `now()`.  (b) With base XP 105 and the bonus applying,
the amount is 116 (`105 * 1.1 = 115.5` rounded half away from zero by
the numeric→integer assignment), not the truncated 115 the claim
specifies. -/
theorem award_quest_completion_cex :
    synergyDb.user_quests.map UserQuestRow.completed_at = [some 1000, some 1000] ∧
    Option.map profileXps (award_quest_completion_xp synergyDb 0 1 1400) = some [100] ∧
    Option.map profileXps (award_quest_completion_xp synergyDb 0 1 1400) ≠ some [110] ∧
    Option.map profileXps (award_quest_completion_xp synergyDb105 0 1 1000) = some [116] ∧
    Option.map profileXps (award_quest_completion_xp synergyDb105 0 1 1000) ≠ some [115] := by
  refine ⟨rfl, rfl, ?_, rfl, ?_⟩
  · intro h
    rw [show Option.map profileXps (award_quest_completion_xp synergyDb 0 1 1400)
        = some [100] from rfl] at h
    exact absurd h (by decide)
  · intro h
    rw [show Option.map profileXps (award_quest_completion_xp synergyDb105 0 1 1000)
        = some [116] from rfl] at h
    exact absurd h (by decide)

/-- CLAIM C4, amended.  When the quest and the profile exist, the
quest-completion award adds `synergyAmount base bonus` to the profile's
xp, where the bonus condition is `check_friend_synergy` evaluated at the
time the function runs (its `now()`), and the bonus amount is the base
times 1.1 rounded half away from zero (`(base * 11 + 5) / 10`), not
truncated; without the bonus the stored base applies unchanged.  For
base 100, a friend completion 150 s before the call yields 110 XP and
one 400 s before yields 100 XP. -/
theorem award_quest_completion_amount (db : DB) (u : UserId) (q : QuestId) (t : Time)
    (quest : QuestRow) (prof : Profile)
    (hq : db.quests.find? (fun r => r.id = q) = some quest)
    (hp : db.profiles.find? (fun p => p.user_id = u) = some prof) :
    award_quest_completion_xp db u q t =
      some (setProfileXp db u
        (prof.xp + synergyAmount quest.base_xp_reward (check_friend_synergy db u q t))) ∧
    synergyAmount quest.base_xp_reward true = (quest.base_xp_reward * 11 + 5) / 10 ∧
    synergyAmount quest.base_xp_reward false = quest.base_xp_reward ∧
    Option.map profileXps (award_quest_completion_xp synergyDb 0 1 1150) = some [110] ∧
    Option.map profileXps (award_quest_completion_xp synergyDb 0 1 1400) = some [100] := by
  refine ⟨?_, rfl, rfl, rfl, rfl⟩
  unfold award_quest_completion_xp
  rw [hq, hp]

/-- Witness for C4's amended statement in `synergyDb`. -/
theorem award_quest_completion_amount_witness :
    award_quest_completion_xp synergyDb 0 1 1150 =
      some (setProfileXp synergyDb 0
        (0 + synergyAmount 100 (check_friend_synergy synergyDb 0 1 1150))) :=
  (award_quest_completion_amount synergyDb 0 1 1150
    { id := 1, base_xp_reward := 100 }
    { user_id := 0, username := "ada", bio := none, xp := 0, level := 1 }
    rfl rfl).1

/-- CLAIM C10.  `check_friend_synergy` holds at evaluation time `t` iff
some `user_quests` row for the same quest, completed, belonging to a
user related to the caller by an `accepted` friendship in either
direction, has a non-null `completed_at` within 300 seconds of `t`;
`award_quest_completion_xp` passes `now()` — its call time — as `t`, so
the same completion awarded at two different times can yield different
amounts (110 at 250 s after the sibling completion, 100 at 350 s). -/
theorem synergy_uses_call_time (db : DB) (u : UserId) (q : QuestId) (t : Time) :
    (check_friend_synergy db u q t = true ↔
      ∃ uq ∈ db.user_quests, uq.quest_id = q ∧ uq.is_completed = true ∧
        (∃ f ∈ db.friendships, f.status = FriendStatus.accepted ∧
          ((f.user_id = uq.user_id ∧ f.friend_id = u) ∨
           (f.friend_id = uq.user_id ∧ f.user_id = u))) ∧
        ∃ ct, uq.completed_at = some ct ∧ (ct - t).natAbs ≤ 300) ∧
    Option.map profileXps (award_quest_completion_xp synergyDb 0 1 1250) = some [110] ∧
    Option.map profileXps (award_quest_completion_xp synergyDb 0 1 1350) = some [100] := by
  refine ⟨?_, rfl, rfl⟩
  unfold check_friend_synergy
  rw [List.any_eq_true]
  constructor
  · rintro ⟨uq, hmem, hbody⟩
    simp only [Bool.and_eq_true, List.any_eq_true, Bool.or_eq_true, decide_eq_true_eq] at hbody
    obtain ⟨⟨⟨⟨f, hf, hforb⟩, hquest⟩, hcomp⟩, hwin⟩ := hbody
    refine ⟨uq, hmem, hquest, hcomp, ?_, ?_⟩
    · rcases hforb with ⟨hside, hstat⟩
      exact ⟨f, hf, hstat, hside⟩
    · cases hct : uq.completed_at with
      | none => rw [hct] at hwin; exact absurd hwin (by simp)
      | some ct =>
          rw [hct] at hwin
          simp only [decide_eq_true_eq] at hwin
          exact ⟨ct, rfl, hwin⟩
  · rintro ⟨uq, hmem, hquest, hcomp, ⟨f, hf, hstat, hside⟩, ct, hct, hwin⟩
    refine ⟨uq, hmem, ?_⟩
    simp only [Bool.and_eq_true, List.any_eq_true, Bool.or_eq_true, decide_eq_true_eq]
    refine ⟨⟨⟨⟨f, hf, ?_⟩, hquest⟩, hcomp⟩, ?_⟩
    · exact ⟨hside, hstat⟩
    · rw [hct]
      simp only [decide_eq_true_eq]
      exact hwin

/-- Witness for C10: the synergy condition holds in `synergyDb` at
evaluation time 1250 (the friend completed at 1000). -/
theorem synergy_uses_call_time_witness :
    ∃ uq ∈ synergyDb.user_quests, uq.quest_id = 1 ∧ uq.is_completed = true ∧
      (∃ f ∈ synergyDb.friendships, f.status = FriendStatus.accepted ∧
        ((f.user_id = uq.user_id ∧ f.friend_id = 0) ∨
         (f.friend_id = uq.user_id ∧ f.user_id = 0))) ∧
      ∃ ct, uq.completed_at = some ct ∧ (ct - 1250).natAbs ≤ 300 :=
  (synergy_uses_call_time synergyDb 0 1 1250).1.mp (by decide)


/-! ### The derived-level invariant (C7) -/

theorem ProfileInv.of_profiles_eq {db1 db2 : DB} (h : db2.profiles = db1.profiles)
    (hi : ProfileInv db1) : ProfileInv db2 := by
  intro p hp
  exact hi p (h ▸ hp)

theorem ProfileInv.setXp {db : DB} (u : UserId) (x : Nat) (h : ProfileInv db) :
    ProfileInv (setProfileXp db u x) := by
  intro p hp
  unfold setProfileXp at hp
  rcases List.mem_map.mp hp with ⟨a, ha, rfl⟩
  by_cases hc : a.user_id = u
  · rw [if_pos hc]
  · rw [if_neg hc]
    exact h a ha

theorem ProfileInv.addXp {db : DB} (u : UserId) (amt : Nat) (h : ProfileInv db) :
    ProfileInv (addProfileXp db u amt) := by
  intro p hp
  unfold addProfileXp at hp
  rcases List.mem_map.mp hp with ⟨a, ha, rfl⟩
  by_cases hc : a.user_id = u
  · rw [if_pos hc]
  · rw [if_neg hc]
    exact h a ha

theorem award_badge_profiles (db : DB) (u : UserId) (b : BadgeId) :
    (award_badge db u b).profiles = db.profiles := by
  unfold award_badge
  split <;> rfl

theorem award_title_profiles (db : DB) (u : UserId) (t : TitleId) :
    (award_title db u t).profiles = db.profiles := by
  unfold award_title
  split <;> rfl

theorem questReward_inv {db : DB} (u : UserId) (r : QuestRewardRow)
    (h : ProfileInv db) : ProfileInv (applyQuestReward db u r) := by
  unfold applyQuestReward
  apply ProfileInv.addXp
  cases hb : r.badge_id <;> cases ht : r.title_id <;>
    simp only [] <;>
    first
      | exact h
      | exact ProfileInv.of_profiles_eq (award_title_profiles _ _ _) h
      | exact ProfileInv.of_profiles_eq (award_badge_profiles _ _ _) h
      | exact ProfileInv.of_profiles_eq (award_title_profiles _ _ _)
          (ProfileInv.of_profiles_eq (award_badge_profiles _ _ _) h)

theorem achievementReward_inv {db : DB} (u : UserId) (r : AchievementRewardRow)
    (h : ProfileInv db) : ProfileInv (applyAchievementReward db u r) := by
  unfold applyAchievementReward
  have h2 : ProfileInv
      (match r.title_id with
       | some t => award_title (match r.badge_id with
           | some b => award_badge db u b
           | none => db) u t
       | none => match r.badge_id with
           | some b => award_badge db u b
           | none => db) := by
    cases hb : r.badge_id <;> cases ht : r.title_id <;>
      simp only [] <;>
      first
        | exact h
        | exact ProfileInv.of_profiles_eq (award_title_profiles _ _ _) h
        | exact ProfileInv.of_profiles_eq (award_badge_profiles _ _ _) h
        | exact ProfileInv.of_profiles_eq (award_title_profiles _ _ _)
            (ProfileInv.of_profiles_eq (award_badge_profiles _ _ _) h)
  cases hx : r.xp_reward with
  | none => simp only [hx]; exact h2
  | some amt => simp only [hx]; exact ProfileInv.addXp u amt h2

theorem ProfileInv.foldl {β : Type} (g : DB → β → DB)
    (hg : ∀ d r, ProfileInv d → ProfileInv (g d r)) :
    ∀ (l : List β) (db : DB), ProfileInv db → ProfileInv (l.foldl g db)
  | [], _, h => h
  | r :: rs, db, h => ProfileInv.foldl g hg rs (g db r) (hg db r h)

theorem accept_profiles (db : DB) (q : QuestId) (u : UserId) (t : Time) :
    (dbAfter db (acceptQuest db q u t)).profiles = db.profiles := by
  unfold acceptQuest
  split <;> rfl

theorem submit_profiles (db : DB) (sub : SubmissionInput) (t : Time) (env : SubmitEnv) :
    (dbAfter db (submitQuestStep db sub t env)).profiles = db.profiles := by
  rcases env with ⟨up, ins, upd⟩
  cases up <;> cases ins <;> cases upd <;> rfl

theorem coreOp_inv {db : DB} (op : CoreOp) (h : ProfileInv db) :
    ProfileInv (applyCoreOp db op) := by
  cases op with
  | createProfileOp uid u b =>
      show ProfileInv (dbAfter db (createProfile db uid u b))
      unfold createProfile
      split
      · exact h
      · intro p hp
        rcases List.mem_append.mp hp with hmem | hmem
        · exact h p hmem
        · rcases List.mem_singleton.mp hmem with rfl
          exact calculate_level_0.symm
  | updateProfileOp uid u b =>
      show ProfileInv (match updateProfile db uid u b with
        | .ok db2 => db2
        | .error _ => db)
      cases hres : updateProfile db uid u b with
      | error e => exact h
      | ok db2 =>
          show ProfileInv db2
          unfold updateProfile at hres
          cases u with
          | none =>
              injection hres with h2
              subst h2
              intro p hp
              rcases List.mem_map.mp hp with ⟨a, ha, rfl⟩
              by_cases hc : a.user_id = uid
              · rw [if_pos hc]; exact h a ha
              · rw [if_neg hc]; exact h a ha
          | some un =>
              dsimp only at hres
              cases hB : db.profiles.any fun p => p.username = un && p.user_id ≠ uid with
              | true =>
                  rw [hB] at hres
                  simp at hres
              | false =>
                  rw [hB] at hres
                  simp only [Bool.false_eq_true, if_false, Except.ok.injEq] at hres
                  subst hres
                  intro p hp
                  rcases List.mem_map.mp hp with ⟨a, ha, rfl⟩
                  by_cases hc : a.user_id = uid
                  · rw [if_pos hc]; exact h a ha
                  · rw [if_neg hc]; exact h a ha
  | awardStepXpOp uid q s =>
      show ProfileInv ((award_step_xp db uid q s).getD db)
      unfold award_step_xp
      split
      · exact ProfileInv.setXp uid _ h
      · exact h
  | awardQuestCompletionXpOp uid q t =>
      show ProfileInv ((award_quest_completion_xp db uid q t).getD db)
      unfold award_quest_completion_xp
      split
      · exact ProfileInv.setXp uid _ h
      · exact h
  | checkAndAwardQuestRewardsOp uid q =>
      exact ProfileInv.foldl _ (fun d r => questReward_inv uid r) _ db h
  | checkAndAwardAchievementRewardsOp uid a =>
      exact ProfileInv.foldl _ (fun d r => achievementReward_inv uid r) _ db h
  | acceptQuestOp q uid t =>
      exact ProfileInv.of_profiles_eq (accept_profiles db q uid t) h
  | submitQuestStepOp sub t env =>
      exact ProfileInv.of_profiles_eq (submit_profiles db sub t env) h

/-- CLAIM C7.  Every core operation — profile creation, the profile
update, each XP-awarding SQL function (whose `update ... set xp` fires
the `update_level_on_xp_change` trigger), quest acceptance and step
submission — preserves `level = calculate_level xp` on every profile;
consequently every state reachable from the empty database through core
operations satisfies the invariant: no operation writes `level` except
as `calculate_level` of the xp it writes (profile creation inserts the
literal pair `xp = 0, level = 1`, and `1 = calculate_level 0`). -/
theorem level_invariant_spec :
    (∀ (db : DB) (op : CoreOp), ProfileInv db → ProfileInv (applyCoreOp db op)) ∧
    ∀ ops : List CoreOp, ProfileInv (ops.foldl applyCoreOp DB.empty) :=
  ⟨fun _ op h => coreOp_inv op h,
   fun ops => ProfileInv.foldl applyCoreOp (fun _ op h => coreOp_inv op h)
     ops DB.empty (fun p hp => absurd hp (List.not_mem_nil p))⟩

/-- Witness for C7: the invariant holds after creating a profile and
running a step award from the empty database, and in the end-to-end
scenario state. -/
theorem level_invariant_spec_witness :
    ProfileInv (List.foldl applyCoreOp DB.empty
      [CoreOp.createProfileOp 0 "ada" none, CoreOp.awardStepXpOp 0 1 10]) :=
  level_invariant_spec.2
    [CoreOp.createProfileOp 0 "ada" none, CoreOp.awardStepXpOp 0 1 10]

end Sideqst
